import Mathlib

/-!
Shallow embedding of the Bookshelf-Flashcards validation, configuration and
storage core (src/validation.py, src/config.py, src/database.py).

Strings are modelled as lists of characters (`Str`), so that Python's
substring, strip and lower operations become list operations.  Python's
`str.strip()` is modelled over the ASCII whitespace set; `str.lower()` as
character-wise `Char.toLower` (the inputs the claims quantify over are ASCII).
File paths are modelled as POSIX path strings resolved against an explicit
current working directory on a symlink-free filesystem, which is exactly the
lexical normalisation `Path.resolve()` performs for paths that traverse no
symlink.  SQLite state is modelled as an explicit list of rows plus the next
AUTOINCREMENT id; `created_at` ordering is modelled by insertion order
(`ORDER BY created_at DESC` returns the reverse of insertion order).
-/

/-- Python strings as lists of characters. -/
abbrev Str := List Char

/-- The ASCII whitespace characters stripped by Python's `str.strip()`. -/
def isPySpace (c : Char) : Bool :=
  c == ' ' || c == '\t' || c == '\n' || c == '\r' || c == '\x0b' || c == '\x0c'

/-- Python `s.strip()`: remove leading and trailing whitespace. -/
def pyStrip (s : Str) : Str :=
  ((s.dropWhile isPySpace).reverse.dropWhile isPySpace).reverse

/-- Python `s.lower()` (character-wise, faithful on ASCII). -/
def pyLower (s : Str) : Str := s.map Char.toLower

/-- Python `needle in hay` substring test. -/
def pyIn (needle hay : Str) : Bool := decide (needle <:+: hay)

/-- Validation failures.  The Python source raises a single `ValidationError`
class distinguished by message; each constructor here corresponds to one
`raise ValidationError(...)` site of src/validation.py. -/
inductive VErr
  | titleEmpty | titleTooLong | titleControl | titleDangerous
  | authorEmpty | authorTooLong | authorControl | authorDangerous
  | summaryTooLong | summaryNullByte | summaryDangerous
  | bookIdOutOfRange | bookIdTooLarge
  | pathNullByte | pathEscape | pathSuspicious
  deriving DecidableEq, Repr

def MAX_TITLE_LENGTH : Nat := 500

def MAX_AUTHOR_LENGTH : Nat := 200

def MAX_SUMMARY_LENGTH : Nat := 10000

/-- The fixed XSS denylist of src/validation.py (`dangerous_patterns`). -/
def dangerous_patterns : List Str :=
  [("<script").toList, ("javascript:").toList, ("onerror=").toList,
   ("onclick=").toList, ("<iframe").toList, ("eval(").toList]

/-- Python `'\x00' in s or '\r' in s or '\n' in s or '\t' in s` (title/author check). -/
def hasControlChar (s : Str) : Bool :=
  s.contains '\x00' || s.contains '\r' || s.contains '\n' || s.contains '\t'

/-- Python `any(pattern in s.lower() for pattern in dangerous_patterns)`. -/
def hasDangerousPattern (s : Str) : Bool :=
  dangerous_patterns.any (fun p => pyIn p (pyLower s))

/-- Embeds `validate_title` of src/validation.py. -/
def validate_title (title : Str) : Except VErr Str :=
  let t := pyStrip title
  if t.isEmpty then .error .titleEmpty
  else if MAX_TITLE_LENGTH < t.length then .error .titleTooLong
  else if hasControlChar t then .error .titleControl
  else if hasDangerousPattern t then .error .titleDangerous
  else .ok t

/-- Embeds `validate_author` of src/validation.py. -/
def validate_author (author : Str) : Except VErr Str :=
  let a := pyStrip author
  if a.isEmpty then .error .authorEmpty
  else if MAX_AUTHOR_LENGTH < a.length then .error .authorTooLong
  else if hasControlChar a then .error .authorControl
  else if hasDangerousPattern a then .error .authorDangerous
  else .ok a

/-- Embeds `validate_summary` of src/validation.py (`None` and empty-after-trim both
normalise to `None`; only NUL is rejected as a control character). -/
def validate_summary (summary : Option Str) : Except VErr (Option Str) :=
  match summary with
  | none => .ok none
  | some s0 =>
    let s := pyStrip s0
    if s.isEmpty then .ok none
    else if MAX_SUMMARY_LENGTH < s.length then .error .summaryTooLong
    else if s.contains '\x00' then .error .summaryNullByte
    else if hasDangerousPattern s then .error .summaryDangerous
    else .ok (some s)

/-- Embeds `validate_book_id` of src/validation.py, for inputs that are already
integers (`int(book_id)` is the identity there). -/
def validate_book_id (book_id : Int) : Except VErr Nat :=
  if book_id ≤ 0 then .error .bookIdOutOfRange
  else if (2147483647 : Int) < book_id then .error .bookIdTooLarge
  else .ok book_id.toNat

/-- Embeds `validate_all_book_data` of src/validation.py: title, then author, then
summary, stopping at the first failure. -/
def validate_all_book_data (title author : Str) (summary : Option Str) :
    Except VErr (Str × Str × Option Str) := do
  let vt ← validate_title title
  let va ← validate_author author
  let vs ← validate_summary summary
  return (vt, va, vs)

/-! ### POSIX path model for `validate_file_path`

A path string is split on `'/'`; empty and `"."` segments vanish (as in
`pathlib.PurePath`); `".."` segments are resolved lexically by
`Path.resolve()` on a symlink-free filesystem, dropping the previous segment
(and staying at the root when there is none).  The current working directory
is an explicit list of segments. -/

/-- Segments of a path string, with empty and `"."` segments removed. -/
def rawSegments (s : Str) : List Str :=
  (s.splitOn ('/')).filter (fun seg => !(seg.isEmpty || seg == [('.')]))

/-- Fold `".."`-resolution over segments, starting from `acc`. -/
def resolveSegs (acc : List Str) : List Str → List Str
  | [] => acc
  | seg :: rest =>
    if seg == [('.'), ('.')] then resolveSegs acc.dropLast rest
    else resolveSegs (acc ++ [seg]) rest

/-- Python `Path(p).resolve()` against current working directory `cwd` (a list of
segments of an absolute, already-normalised directory). -/
def resolvePath (cwd : List Str) (p : Str) : List Str :=
  if p.head? == some ('/') then resolveSegs [] (rawSegments p)
  else resolveSegs cwd (rawSegments p)

/-- Render segments of an absolute path as `str(Path(...))` does:
`"/"` for the root, otherwise `"/seg1/seg2/..."`. -/
def renderSegs : List Str → Str
  | [] => []
  | seg :: rest => ('/') :: seg ++ renderSegs rest

/-- String form of a resolved absolute path. -/
def renderAbs (segs : List Str) : Str :=
  if segs.isEmpty then [('/')] else renderSegs segs

/-- The `suspicious_patterns` list of `validate_file_path`. -/
def suspicious_patterns : List Str :=
  [("..").toList, ("~/").toList, ("$HOME").toList]

/-- Embeds `validate_file_path` of src/validation.py, parameterised by the current
working directory.  NUL check; resolve; containment of the resolved path in
the resolved base directory (`relative_to`, a segment-wise check — skipped
when `base_dir` is `None` or empty, since Python tests `if base_dir:`);
finally the suspicious-pattern check, comparing each token against the
*lowercased* original input and the resolved path string. -/
def validate_file_path (cwd : List Str) (file_path : Str) (base_dir : Option Str) :
    Except VErr Str :=
  if file_path.contains '\x00' then .error .pathNullByte
  else
    let resolved := resolvePath cwd file_path
    let baseOk : Bool :=
      match base_dir with
      | none => true
      | some b => if b.isEmpty then true else (resolvePath cwd b).isPrefixOf resolved
    if !baseOk then .error .pathEscape
    else
      let path_str := renderAbs resolved
      let original_lower := pyLower file_path
      if suspicious_patterns.any (fun pat => pyIn pat original_lower && pyIn pat path_str) then
        .error .pathSuspicious
      else .ok path_str

/-! ### Storage layer (src/database.py) -/

/-- One row of the `books` table. -/
structure BookRow where
  id : Nat
  title : Str
  author : Str
  summary : Option Str
  user_id : Option Nat
  deriving DecidableEq, Repr

/-- State of the `books` table: rows in insertion (`created_at`) order, plus
the next AUTOINCREMENT id. -/
structure DB where
  rows : List BookRow
  nextId : Nat
  deriving DecidableEq, Repr

/-- The application-level duplicate check of `add_book`: same validated title
and author within the caller's owner scope (`user_id = ?` / `user_id IS NULL`). -/
def scopeMatch (r : BookRow) (t a : Str) (u : Option Nat) : Bool :=
  r.title == t && r.author == a && r.user_id == u

/-- The schema-level `UNIQUE(title, author)` constraint match (whole table,
ignoring the owner). -/
def pairMatch (r : BookRow) (t a : Str) : Bool :=
  r.title == t && r.author == a

/-- Embeds `BookDatabase.add_book`: validate; return the existing id on an in-scope
duplicate; otherwise INSERT — which violates the table-wide
`UNIQUE(title, author)` constraint whenever any row (of any owner) already
holds the pair, in which case the `sqlite3.IntegrityError` handler re-queries
by `(title, author)` alone and returns that row's id. -/
def add_book (db : DB) (title author : Str) (summary : Option Str)
    (user_id : Option Nat) : Except VErr (Nat × DB) := do
  let (vt, va, vs) ← validate_all_book_data title author summary
  match db.rows.find? (fun r => scopeMatch r vt va user_id) with
  | some r => return (r.id, db)
  | none =>
    match db.rows.find? (fun r => pairMatch r vt va) with
    | some r => return (r.id, db)
    | none =>
      return (db.nextId, ⟨db.rows ++ [⟨db.nextId, vt, va, vs, user_id⟩], db.nextId + 1⟩)

/-- The filter `user_id = ? OR user_id IS NULL` — the ownership visibility filter. -/
def ownedOrUnowned (r : BookRow) (u : Nat) : Bool :=
  r.user_id == some u || r.user_id == none

/-- Embeds `BookDatabase.get_book`: validate the id; with a user, return the row only
if it belongs to that user or has no owner. -/
def get_book (db : DB) (book_id : Int) (user_id : Option Nat) :
    Except VErr (Option BookRow) := do
  let vid ← validate_book_id book_id
  match user_id with
  | some u => return db.rows.find? (fun r => r.id == vid && ownedOrUnowned r u)
  | none => return db.rows.find? (fun r => r.id == vid)

/-- Embeds `BookDatabase.get_all_books`: all rows, or the owned-or-unowned rows when
a user is given; `ORDER BY created_at DESC` = reverse insertion order. -/
def get_all_books (db : DB) (user_id : Option Nat) : List BookRow :=
  match user_id with
  | some u => (db.rows.filter (fun r => ownedOrUnowned r u)).reverse
  | none => db.rows.reverse

/-- Embeds `BookDatabase.search_books_by_title`: exact-title match; the method takes
no user identifier, so no ownership filter is applied. -/
def search_books_by_title (db : DB) (title : Str) : List BookRow :=
  db.rows.filter (fun r => r.title == title)

/-! ### Configuration (src/config.py)

A secret provider is a pure lookup `Str → Option Str`; the environment is a
second such lookup used for `os.getenv` calls outside the provider chain.
`ConfigurationError` is represented by its message string. -/

namespace Config

/-- A `Config` instance: the registered secret providers (in registration
order), the process environment, and the `_detect_production()` result. -/
structure ConfigState where
  providers : List (Str → Option Str)
  env : Str → Option Str
  is_production : Bool

def SECRET_KEY_NAME : Str := ("SECRET_KEY").toList

def GOOGLE_KEY_NAME : Str := ("GOOGLE_AI_API_KEY").toList

/-- The hard-coded default of `get_secret_key`. -/
def devDefaultSecretKey : Str := ("dev-secret-key-change-in-production").toList

/-- The list `INSECURE_DEFAULTS['SECRET_KEY']`. -/
def insecureSecretKeys : List Str :=
  [devDefaultSecretKey, ("dev-secret-key").toList]

/-- The list `INSECURE_DEFAULTS['GOOGLE_AI_API_KEY']`. -/
def insecureGoogleKeys : List Str :=
  [("your_api_key_here").toList, ("test_key").toList, ("test_api_key").toList]

/-- Embeds `_init_secret_providers`: environment first, then the file provider when
the secrets directory exists, then the cloud provider when configured. -/
def init_secret_providers (env file cloud : Str → Option Str)
    (secretsDirExists cloudConfigured : Bool) : List (Str → Option Str) :=
  [env] ++ (if secretsDirExists then [file] else [])
    ++ (if cloudConfigured then [cloud] else [])

/-- The provider loop of `get_secret`: first value that is truthy
(non-`None` and non-empty, Python's `if value:`). -/
def resolveSecret : List (Str → Option Str) → Str → Option Str
  | [], _ => none
  | p :: ps, key =>
    match p key with
    | some v => if v.isEmpty then resolveSecret ps key else some v
    | none => resolveSecret ps key

def notFoundMsg : Str := ("Required configuration value not found").toList

/-- Embeds `Config.get_secret`: provider chain, then explicit default, then — when
`required` — a `ConfigurationError` whose message carries the key name only
outside production. -/
def get_secret (cfg : ConfigState) (key : Str) (default : Option Str)
    (required : Bool) : Except Str (Option Str) :=
  match resolveSecret cfg.providers key with
  | some v => .ok (some v)
  | none =>
    match default with
    | some d => .ok (some d)
    | none =>
      if required then
        if cfg.is_production then .error notFoundMsg
        else .error (notFoundMsg ++ (": ").toList ++ key)
      else .ok none

/-- Embeds `Config.get_secret_key`: `get_secret('SECRET_KEY', default=...)`, which
always yields a value. -/
def get_secret_key (cfg : ConfigState) : Str :=
  (resolveSecret cfg.providers SECRET_KEY_NAME).getD devDefaultSecretKey

/-- The `API_KEY_PATTERNS['GOOGLE_AI_API_KEY']` regex
(at least 20 characters from `[A-Za-z0-9_-]`). -/
def googleKeyFormat (s : Str) : Bool :=
  20 ≤ s.length && s.all (fun c => c.isAlphanum || c == '_' || c == '-')

/-- The `INSECURE_DEFAULTS` lookup by key name (empty for unknown keys). -/
def insecureDefaultsFor (key_name : Str) : List Str :=
  if key_name == SECRET_KEY_NAME then insecureSecretKeys
  else if key_name == GOOGLE_KEY_NAME then insecureGoogleKeys
  else []

/-- Embeds `Config.validate_api_key`. -/
def validate_api_key (key_name : Str) (key_value : Option Str) : Bool :=
  match key_value with
  | none => false
  | some v =>
    if v.isEmpty then false
    else if (insecureDefaultsFor key_name).contains v then false
    else if key_name == GOOGLE_KEY_NAME && !googleKeyFormat v then false
    else if v.length < 10 then false
    else true

def criticalSecretMsg : Str :=
  ("CRITICAL: Using default SECRET_KEY in production! Set SECRET_KEY environment variable to a strong random value.").toList

def shortSecretMsg : Str :=
  ("WARNING: SECRET_KEY is too short. Use at least 32 characters.").toList

def badApiKeyMsg : Str :=
  ("WARNING: GOOGLE_AI_API_KEY appears to be invalid or a placeholder. Set a valid API key.").toList

def httpsInfoMsg : Str :=
  ("INFO: Consider setting FORCE_HTTPS=true for production.").toList

def FORCE_HTTPS_NAME : Str := ("FORCE_HTTPS").toList

/-- Embeds `Config.check_security`: empty outside production; inside production,
inspect `get_secret('SECRET_KEY')` (no default — `None` when absent, so the
CRITICAL branch fires only when a provider actually yields an insecure value),
then `get_secret('GOOGLE_AI_API_KEY')`, then `FORCE_HTTPS`. -/
def check_security (cfg : ConfigState) : List Str :=
  if !cfg.is_production then []
  else
    let secret_key := resolveSecret cfg.providers SECRET_KEY_NAME
    let w1 : List Str :=
      match secret_key with
      | some v =>
        if insecureSecretKeys.contains v then [criticalSecretMsg]
        else if !v.isEmpty && v.length < 32 then [shortSecretMsg]
        else []
      | none => []
    let api_key := resolveSecret cfg.providers GOOGLE_KEY_NAME
    let w2 : List Str :=
      match api_key with
      | some v =>
        if !v.isEmpty && !validate_api_key GOOGLE_KEY_NAME (some v) then [badApiKeyMsg]
        else []
      | none => []
    let w3 : List Str :=
      if !(pyLower ((cfg.env FORCE_HTTPS_NAME).getD []) == ("true").toList) then [httpsInfoMsg]
      else []
    w1 ++ w2 ++ w3

/-- Python `warning.startswith('CRITICAL:')`. -/
def startsWithCritical (w : Str) : Bool := (("CRITICAL:").toList).isPrefixOf w

/-- Embeds `Config.validate`: raise `ConfigurationError` at the first CRITICAL
finding when in production; otherwise log and return. -/
def validate (cfg : ConfigState) : Except Str Unit :=
  match (check_security cfg).find? (fun w => startsWithCritical w && cfg.is_production) with
  | some w => .error w
  | none => .ok ()

/-- Specification-side counterpart of `get_secret`, written directly from the words
(§4.3 of spec.md): query environment, then the file provider if the secrets
directory exists, then the cloud provider if configured; return the first
non-empty result; else the explicit default; else, if required, fail with a
message that omits the key name exactly in production.  Used only to compare
against the source-embedded `get_secret` over `init_secret_providers`. -/
def spec_get_secret (env file cloud : Str → Option Str)
    (secretsDirExists cloudConfigured prod : Bool)
    (key : Str) (default : Option Str) (required : Bool) : Except Str (Option Str) :=
  let nonEmptyVal : Option Str → Option Str := fun v =>
    match v with
    | some s => if s.isEmpty then none else some s
    | none => none
  match nonEmptyVal (env key) with
  | some v => .ok (some v)
  | none =>
    match (if secretsDirExists then nonEmptyVal (file key) else none) with
    | some v => .ok (some v)
    | none =>
      match (if cloudConfigured then nonEmptyVal (cloud key) else none) with
      | some v => .ok (some v)
      | none =>
        match default with
        | some d => .ok (some d)
        | none =>
          if required then
            if prod then .error notFoundMsg
            else .error (notFoundMsg ++ (": ").toList ++ key)
          else .ok none

end Config

/-! ### Concrete stores and configurations used by witnesses and counterexamples -/

def tT : Str := ("T").toList

def tA : Str := ("A").toList

/-- The store after `add_book("T", "A", user_id=1)` on a fresh database. -/
def dbT1 : DB := ⟨[⟨1, tT, tA, none, some 1⟩], 2⟩

/-- A store holding one book owned by user 2. -/
def dbC4 : DB := ⟨[⟨1, tT, tA, none, some 2⟩], 2⟩

/-- Current working directory `/a/b`. -/
def cwd0 : List Str := [("a").toList, ("b").toList]

/-- A production configuration whose environment provider yields the insecure
default session secret. -/
def cfgDefaultKeyProd : Config.ConfigState :=
  ⟨[fun k => if k == Config.SECRET_KEY_NAME then some Config.devDefaultSecretKey else none],
   fun _ => none, true⟩

/-- A production configuration with no secret providers yielding anything. -/
def cfgNoSecretsProd : Config.ConfigState := ⟨[], fun _ => none, true⟩

/-- A 501-character title whose trailing 500 characters are spaces. -/
def longPaddedTitle : Str := ('a') :: List.replicate 500 (' ')

/-! ## Helper lemmas -/

/-- Lemma: `get_secret_key` is `get_secret('SECRET_KEY', default='dev-secret-key-change-in-production')`. -/
theorem get_secret_key_eq_get_secret (cfg : Config.ConfigState) :
    Config.get_secret cfg Config.SECRET_KEY_NAME (some Config.devDefaultSecretKey) false =
      .ok (some (Config.get_secret_key cfg)) := by
  unfold Config.get_secret Config.get_secret_key
  cases Config.resolveSecret cfg.providers Config.SECRET_KEY_NAME <;> rfl

/-- Stripping yields an infix of the original string. -/
theorem pyStrip_within (s : Str) : pyStrip s <:+: s := by
  have h1 : s.dropWhile isPySpace <:+ s := List.dropWhile_suffix _
  have h2 : pyStrip s <+: s.dropWhile isPySpace := by
    rw [← List.reverse_suffix]
    unfold pyStrip
    rw [List.reverse_reverse]
    exact List.dropWhile_suffix _
  exact h2.isInfix.trans h1.isInfix

theorem pyStrip_length_le (s : Str) : (pyStrip s).length ≤ s.length :=
  (pyStrip_within s).length_le

/-- Character search is antitone along infixes. -/
theorem contains_false_mono {l₁ l₂ : Str} {c : Char} (h : l₁ <:+: l₂)
    (hc : l₂.contains c = false) : l₁.contains c = false := by
  by_contra hne
  rw [Bool.not_eq_false, List.elem_iff] at hne
  rw [← Bool.not_eq_true, List.elem_iff] at hc
  exact hc (h.subset hne)

theorem hasControlChar_false_mono {l₁ l₂ : Str} (h : l₁ <:+: l₂)
    (hc : hasControlChar l₂ = false) : hasControlChar l₁ = false := by
  unfold hasControlChar at *
  simp only [Bool.or_eq_false_iff] at hc ⊢
  exact ⟨⟨⟨contains_false_mono h hc.1.1.1, contains_false_mono h hc.1.1.2⟩,
    contains_false_mono h hc.1.2⟩, contains_false_mono h hc.2⟩

/-- The case-insensitive denylist search is antitone along infixes. -/
theorem hasDangerousPattern_false_mono {l₁ l₂ : Str} (h : l₁ <:+: l₂)
    (hd : hasDangerousPattern l₂ = false) : hasDangerousPattern l₁ = false := by
  unfold hasDangerousPattern pyIn at *
  rw [List.any_eq_false] at hd ⊢
  intro p hp
  have h2 := hd p hp
  simp only [decide_eq_true_eq] at h2 ⊢
  intro hin
  exact h2 (List.IsInfix.trans hin (h.map Char.toLower))

theorem renderSegs_append (l₁ l₂ : List Str) :
    renderSegs (l₁ ++ l₂) = renderSegs l₁ ++ renderSegs l₂ := by
  induction l₁ with
  | nil => simp [renderSegs]
  | cons s rest ih => simp [renderSegs, ih]

/-- Rendering absolute paths is monotone with respect to segment prefixes,
so segment containment implies string-prefix containment. -/
theorem renderAbs_mono {l₁ l₂ : List Str} (h : l₁ <+: l₂) :
    renderAbs l₁ <+: renderAbs l₂ := by
  obtain ⟨t, rfl⟩ := h
  cases l₁ with
  | nil =>
    cases t with
    | nil => exact List.prefix_refl _
    | cons s ts =>
      refine ⟨s ++ renderSegs ts, ?_⟩
      simp [renderAbs, renderSegs]
  | cons s rest =>
    refine ⟨renderSegs t, ?_⟩
    simp [renderAbs, renderSegs, renderSegs_append]

/-! ## Claim theorems -/

/-- C1 (code bug).  The claim: two `add_book` calls for the same validated
`(title, author)` by two distinct users produce two distinct ids and two rows.
The code instead hits the table-wide `UNIQUE(title, author)` constraint on the
second call's INSERT and its `IntegrityError` fallback returns the *first*
user's row id: on a fresh store, `add_book("T","A",user_id=1)` returns id 1,
`add_book("T","A",user_id=2)` returns the same id 1, the store is unchanged,
and only user 1's row exists. -/
theorem c1_add_book_cross_user_same_id :
    add_book ⟨[], 1⟩ tT tA none (some 1) = .ok (1, dbT1) ∧
    add_book dbT1 tT tA none (some 2) = .ok (1, dbT1) ∧
    get_all_books dbT1 none = [⟨1, tT, tA, none, some 1⟩] ∧
    get_all_books dbT1 (some 1) = [⟨1, tT, tA, none, some 1⟩] :=
  ⟨rfl, rfl, rfl, rfl⟩

/-- C10 (code bug).  The claim: a `'$HOME'` token present in the original
input and surviving into the resolved path makes `validate_file_path` fail
`SuspiciousPattern`.  The code compares each token against the *lowercased*
original (`original_lower`), where the upper-case token `'$HOME'` can never
occur, so the check is dead: `validate_file_path("/$HOME")` succeeds even
though `'$HOME'` occurs in both the original input and the resolved path. -/
theorem c10_dollar_home_check_dead :
    pyIn (("$HOME").toList) (("/$HOME").toList) = true ∧
    pyIn (("$HOME").toList) (renderAbs (resolvePath cwd0 (("/$HOME").toList))) = true ∧
    validate_file_path cwd0 (("/$HOME").toList) none = .ok (("/$HOME").toList) :=
  ⟨rfl, rfl, rfl⟩

/-- C2 (confirmed).  In any configuration where production is detected and
the secret-provider chain resolves `SECRET_KEY` to a value on the known
insecure-default list (in particular to
`'dev-secret-key-change-in-production'`), `Config.validate` raises
`ConfigurationError` with the CRITICAL finding, refusing startup. -/
theorem c2_validate_raises_on_default_secret_in_production
    (cfg : Config.ConfigState) (v : Str)
    (hprod : cfg.is_production = true)
    (hres : Config.resolveSecret cfg.providers Config.SECRET_KEY_NAME = some v)
    (hins : v ∈ Config.insecureSecretKeys) :
    Config.validate cfg = .error Config.criticalSecretMsg := by
  have hc : Config.insecureSecretKeys.contains v = true := List.elem_iff.mpr hins
  unfold Config.validate Config.check_security
  rw [hprod, hres]
  simp only [Bool.not_true, Bool.false_eq_true, if_false, hc, if_true]
  rfl

/-- Witness for C2 at a concrete production configuration whose environment
provider yields the insecure default secret. -/
theorem c2_witness :
    Config.validate cfgDefaultKeyProd = .error Config.criticalSecretMsg :=
  c2_validate_raises_on_default_secret_in_production cfgDefaultKeyProd
    Config.devDefaultSecretKey rfl rfl (List.mem_cons_self _ _)

/-- C3 (confirmed).  When no secret provider yields a (truthy) value for
`SECRET_KEY`, `get_secret_key` falls back to the hard-coded insecure default,
while `check_security` produces no CRITICAL finding (it inspects
`get_secret('SECRET_KEY')`, which is `None`, never the default) and
`Config.validate` returns normally — for every configuration, production
included: the process serves requests with the insecure default secret. -/
theorem c3_absent_secret_uses_default_without_critical
    (cfg : Config.ConfigState)
    (hres : Config.resolveSecret cfg.providers Config.SECRET_KEY_NAME = none) :
    Config.get_secret_key cfg = Config.devDefaultSecretKey ∧
    (∀ w ∈ Config.check_security cfg, Config.startsWithCritical w = false) ∧
    Config.validate cfg = .ok () := by
  have hkey : Config.get_secret_key cfg = Config.devDefaultSecretKey := by
    unfold Config.get_secret_key
    rw [hres]
    rfl
  have hmem : ∀ w ∈ Config.check_security cfg, Config.startsWithCritical w = false := by
    intro w hw
    unfold Config.check_security at hw
    by_cases hp : cfg.is_production = true
    · simp only [hp, Bool.not_true, Bool.false_eq_true, if_false, hres, List.nil_append,
        List.mem_append] at hw
      rcases hw with hw | hw
      · rcases hg : Config.resolveSecret cfg.providers Config.GOOGLE_KEY_NAME with _ | v <;>
          simp only [hg] at hw
        · exact absurd hw (List.not_mem_nil w)
        · split at hw
          · rw [List.mem_singleton] at hw
            subst hw
            rfl
          · exact absurd hw (List.not_mem_nil w)
      · split at hw
        · rw [List.mem_singleton] at hw
          subst hw
          rfl
        · exact absurd hw (List.not_mem_nil w)
    · rw [Bool.not_eq_true] at hp
      rw [hp] at hw
      simp only [Bool.not_false, if_true] at hw
      exact absurd hw (List.not_mem_nil w)
  refine ⟨hkey, hmem, ?_⟩
  unfold Config.validate
  rw [List.find?_eq_none.mpr]
  intro w hw
  rw [Bool.and_eq_true, not_and]
  intro hcrit
  rw [hmem w hw] at hcrit
  exact absurd hcrit (by simp)

/-- Witness for C3: a production configuration with no providers at all. -/
theorem c3_witness :
    Config.get_secret_key cfgNoSecretsProd = Config.devDefaultSecretKey ∧
    (∀ w ∈ Config.check_security cfgNoSecretsProd, Config.startsWithCritical w = false) ∧
    Config.validate cfgNoSecretsProd = .ok () :=
  c3_absent_secret_uses_default_without_critical cfgNoSecretsProd rfl

/-- C7 (confirmed).  When the aggregate validator rejects an input with
some field's `ValidationError`, `add_book` surfaces exactly that error, for
every store and owner scope, and — the error being raised before any SQL
executes — the store is untouched (the returned computation carries no new
state). -/
theorem c7_validation_error_propagates
    (title author : Str) (summary : Option Str) (e : VErr)
    (h : validate_all_book_data title author summary = .error e) :
    ∀ (db : DB) (user_id : Option Nat),
      add_book db title author summary user_id = .error e := by
  intro db u
  unfold add_book
  rw [h]
  rfl

/-- Witness for C7: an empty title fails `validate_title` with the
empty-input error, and `add_book` on a fresh store surfaces exactly it. -/
theorem c7_witness : add_book ⟨[], 1⟩ [] tA none none = .error .titleEmpty :=
  c7_validation_error_propagates [] tA none .titleEmpty rfl ⟨[], 1⟩ none

/-- C5 (confirmed).  For a validated `(title, author)` pair not yet present
in the store (in any scope) and a fixed owner scope `u` — including the
unowned scope `none` — two successive `add_book` calls return the same id,
the second call changes nothing and raises nothing, and afterwards
`get_all_books()` holds exactly one row with that title and author in that
scope. -/
theorem c5_add_book_idempotent_same_scope
    (db : DB) (T A : Str) (S : Option Str) (u : Option Nat)
    (vt va : Str) (vs : Option Str)
    (hval : validate_all_book_data T A S = .ok (vt, va, vs))
    (hnew : ∀ r ∈ db.rows, ¬(r.title = vt ∧ r.author = va)) :
    add_book db T A S u =
      .ok (db.nextId, ⟨db.rows ++ [⟨db.nextId, vt, va, vs, u⟩], db.nextId + 1⟩) ∧
    add_book ⟨db.rows ++ [⟨db.nextId, vt, va, vs, u⟩], db.nextId + 1⟩ T A S u =
      .ok (db.nextId, ⟨db.rows ++ [⟨db.nextId, vt, va, vs, u⟩], db.nextId + 1⟩) ∧
    (get_all_books ⟨db.rows ++ [⟨db.nextId, vt, va, vs, u⟩], db.nextId + 1⟩ none).countP
      (fun r => scopeMatch r vt va u) = 1 := by
  have hpair : ∀ r ∈ db.rows, pairMatch r vt va = false := by
    intro r hr
    rw [Bool.eq_false_iff]
    intro hp
    unfold pairMatch at hp
    rw [Bool.and_eq_true, beq_iff_eq, beq_iff_eq] at hp
    exact hnew r hr hp
  have hscope : ∀ r ∈ db.rows, scopeMatch r vt va u = false := by
    intro r hr
    rw [Bool.eq_false_iff]
    intro hs
    unfold scopeMatch at hs
    rw [Bool.and_eq_true, Bool.and_eq_true, beq_iff_eq, beq_iff_eq] at hs
    exact hnew r hr ⟨hs.1.1, hs.1.2⟩
  have hfs : db.rows.find? (fun r => scopeMatch r vt va u) = none :=
    List.find?_eq_none.mpr (by intro r hr; rw [hscope r hr]; simp)
  have hfp : db.rows.find? (fun r => pairMatch r vt va) = none :=
    List.find?_eq_none.mpr (by intro r hr; rw [hpair r hr]; simp)
  have hrow : scopeMatch ⟨db.nextId, vt, va, vs, u⟩ vt va u = true := by
    unfold scopeMatch
    simp
  have hbind : ∀ (x : Str × Str × Option Str) (f : Str × Str × Option Str → Except VErr (Nat × DB)),
      (Except.ok x >>= f) = f x := fun _ _ => rfl
  have hfind2 : (db.rows ++ [(⟨db.nextId, vt, va, vs, u⟩ : BookRow)]).find?
      (fun r => scopeMatch r vt va u) = some ⟨db.nextId, vt, va, vs, u⟩ := by
    rw [List.find?_append, hfs, Option.none_or]
    exact List.find?_cons_of_pos _ hrow
  refine ⟨?_, ?_, ?_⟩
  · simp only [add_book, hval, hbind, hfs, hfp]
    rfl
  · simp only [add_book, hval, hbind]
    rw [hfind2]
    rfl
  · show ((db.rows ++ [(⟨db.nextId, vt, va, vs, u⟩ : BookRow)]).reverse).countP
      (fun r => scopeMatch r vt va u) = 1
    rw [List.countP_reverse, List.countP_append]
    rw [List.countP_eq_zero.mpr (by intro r hr; rw [hscope r hr]; simp)]
    simp [List.countP_cons, hrow]

/-- Witness for C5: the round trip on a fresh store with the unowned scope. -/
theorem c5_witness :
    add_book ⟨[], 1⟩ tT tA none none = .ok (1, ⟨[⟨1, tT, tA, none, none⟩], 2⟩) ∧
    add_book ⟨[⟨1, tT, tA, none, none⟩], 2⟩ tT tA none none =
      .ok (1, ⟨[⟨1, tT, tA, none, none⟩], 2⟩) ∧
    (get_all_books ⟨[⟨1, tT, tA, none, none⟩], 2⟩ none).countP
      (fun r => scopeMatch r tT tA none) = 1 :=
  c5_add_book_idempotent_same_scope ⟨[], 1⟩ tT tA none none tT tA none rfl
    (by intro r hr; exact absurd hr (List.not_mem_nil r))

theorem resolveSecret_cons (p : Str → Option Str) (ps : List (Str → Option Str)) (key : Str) :
    Config.resolveSecret (p :: ps) key =
      match p key with
      | some v => if v.isEmpty then Config.resolveSecret ps key else some v
      | none => Config.resolveSecret ps key := rfl

/-- C6 (confirmed).  Over the provider list built by
`_init_secret_providers` (environment, then the file provider when the
secrets directory exists, then the cloud provider when configured),
`get_secret` behaves exactly as the spec describes: first non-empty provider
value, else the explicit default, else — if required — a
`ConfigurationError` whose message is the bare constant in production and the
constant with `': <key>'` appended (hence containing the key) otherwise. -/
theorem c6_get_secret_provider_order
    (env file cloud fenv : Str → Option Str) (de ce prod : Bool)
    (key : Str) (default : Option Str) (required : Bool) :
    Config.get_secret ⟨Config.init_secret_providers env file cloud de ce, fenv, prod⟩
        key default required =
      Config.spec_get_secret env file cloud de ce prod key default required ∧
    key <:+: Config.notFoundMsg ++ (": ").toList ++ key := by
  constructor
  · unfold Config.get_secret Config.spec_get_secret Config.init_secret_providers
    cases de <;> cases ce <;>
      simp only [if_true, if_false, Bool.false_eq_true, List.append_nil, List.nil_append,
        List.cons_append, List.singleton_append, resolveSecret_cons] <;>
      rcases henv : env key with _ | ev <;>
      rcases hfile : file key with _ | fv <;>
      rcases hcloud : cloud key with _ | cv <;>
      simp only [Config.resolveSecret, henv, hfile, hcloud] <;>
      split_ifs <;>
      simp_all
  · exact (List.suffix_append _ key).isInfix

set_option maxRecDepth 4000 in
/-- C8 counterexample.  The claim says every string of length > 500 fails
`TooLong`; but `validate_title` strips before measuring, so this 501-character
title (an `'a'` followed by 500 spaces) succeeds and returns `"a"`. -/
theorem c8_long_padded_title_accepted :
    MAX_TITLE_LENGTH < longPaddedTitle.length ∧
    validate_title longPaddedTitle = .ok [('a')] := by
  constructor
  · simp [longPaddedTitle, MAX_TITLE_LENGTH]
  · rfl

/-- C8 (corrected).  The length bound is checked on the *stripped* title:
`validate_title(S)` fails `TooLong` exactly on trimmed length > 500; and for
every `S` of length ≤ 500 that is non-empty after trimming, free of
NUL/CR/LF/TAB, and free of the case-insensitive denylist tokens, it succeeds
and returns `S.strip()`. -/
theorem c8_title_length_policy :
    (∀ S : Str, MAX_TITLE_LENGTH < (pyStrip S).length →
        validate_title S = .error .titleTooLong) ∧
    (∀ S : Str, S.length ≤ MAX_TITLE_LENGTH → (pyStrip S).isEmpty = false →
        hasControlChar S = false → hasDangerousPattern S = false →
        validate_title S = .ok (pyStrip S)) := by
  constructor
  · intro S hlen
    unfold validate_title
    rw [if_neg, if_pos hlen]
    rw [Bool.not_eq_true, List.isEmpty_eq_false]
    intro hnil
    rw [hnil] at hlen
    exact absurd hlen (by simp)
  · intro S hlen hne hctl hdng
    have hinf := pyStrip_within S
    unfold validate_title
    rw [if_neg (by rw [hne]; exact Bool.false_ne_true),
      if_neg (by
        rw [not_lt]
        exact le_trans (pyStrip_length_le S) hlen),
      if_neg (by rw [hasControlChar_false_mono hinf hctl]; exact Bool.false_ne_true),
      if_neg (by rw [hasDangerousPattern_false_mono hinf hdng]; exact Bool.false_ne_true)]

set_option maxRecDepth 4000 in
/-- Witness for C8: a title of 501 `'a'`s (unchanged by stripping) fails
`TooLong`, and `" T "` succeeds, returning `"T"`. -/
theorem c8_witness :
    validate_title (List.replicate 501 ('a')) = .error .titleTooLong ∧
    validate_title ((" T ").toList) = .ok tT :=
  ⟨c8_title_length_policy.1 (List.replicate 501 ('a')) (by decide),
   c8_title_length_policy.2 ((" T ").toList) (by decide) (by decide) (by decide) (by decide)⟩

/-- C9 counterexample (current working directory `/a/b`).  First half of
the claim: with base directory `/a`, the input `"../x"` resolves to `/a/x`,
*inside* the base, so the call succeeds instead of failing `PathEscape`.
Second half: `/a/x..y` is a descendant of `/a` (its resolved segments extend
the base's), yet the call fails `SuspiciousPattern` rather than succeeding,
because `".."` occurs in both the input and the resolved string. -/
theorem c9_dotdot_inside_base_counterexample :
    validate_file_path cwd0 (("../x").toList) (some (("/a").toList)) =
      .ok (("/a/x").toList) ∧
    (resolvePath cwd0 (("/a").toList)).isPrefixOf
      (resolvePath cwd0 (("/a/x..y").toList)) = true ∧
    validate_file_path cwd0 (("/a/x..y").toList) (some (("/a").toList)) =
      .error .pathSuspicious :=
  ⟨rfl, rfl, rfl⟩

/-- C9 (corrected).  With a non-empty base directory `D`,
`validate_file_path("../x", base_dir=D)` fails `PathEscape` exactly when the
resolved form of `D` is not a segment-prefix of the resolved form of `"../x"`
(the claim's "for every directory D" is false — `D` may contain the resolved
path).  And a path `p` whose resolved form descends from `D`'s succeeds —
provided it is NUL-free and trips no suspicious-pattern token — returning the
resolved path string, of which `D`'s resolved string form is a prefix
(containment is decided on resolved segment lists, never on raw input
strings). -/
theorem c9_path_containment (cwd : List Str) (D p : Str) :
    (D ≠ [] →
      (resolvePath cwd D).isPrefixOf (resolvePath cwd (("../x").toList)) = false →
      validate_file_path cwd (("../x").toList) (some D) = .error .pathEscape) ∧
    (D ≠ [] → p.contains '\x00' = false →
      (resolvePath cwd D).isPrefixOf (resolvePath cwd p) = true →
      suspicious_patterns.any
        (fun pat => pyIn pat (pyLower p) && pyIn pat (renderAbs (resolvePath cwd p))) = false →
      validate_file_path cwd p (some D) = .ok (renderAbs (resolvePath cwd p)) ∧
      renderAbs (resolvePath cwd D) <+: renderAbs (resolvePath cwd p)) := by
  constructor
  · intro hD hpre
    unfold validate_file_path
    simp at hpre
    simp [List.isEmpty_eq_false.mpr hD, hpre]
  · intro hD hnul hpre hsus
    have hpre2 := hpre
    constructor
    · unfold validate_file_path
      simp at hnul hsus
      simp [hnul, List.isEmpty_eq_false.mpr hD, hpre2]
      exact hsus
    · exact renderAbs_mono (List.isPrefixOf_iff_prefix.mp hpre2)

/-- Witness for C9 (current working directory `/a/b`): base `/c` does not
contain the resolved `"../x"` (= `/a/x`), so `PathEscape`; and `/a/c` is a
clean descendant of base `/a`, so the call succeeds and `/a` prefixes the
returned string. -/
theorem c9_witness :
    validate_file_path cwd0 (("../x").toList) (some (("/c").toList)) =
      .error .pathEscape ∧
    validate_file_path cwd0 (("/a/c").toList) (some (("/a").toList)) =
      .ok (renderAbs (resolvePath cwd0 (("/a/c").toList))) ∧
    renderAbs (resolvePath cwd0 (("/a").toList)) <+:
      renderAbs (resolvePath cwd0 (("/a/c").toList)) := by
  refine ⟨(c9_path_containment cwd0 (("/c").toList) []).1 (by decide) rfl, ?_, ?_⟩
  · exact ((c9_path_containment cwd0 (("/a").toList) (("/a/c").toList)).2
      (by decide) rfl rfl rfl).1
  · exact ((c9_path_containment cwd0 (("/a").toList) (("/a/c").toList)).2
      (by decide) rfl rfl rfl).2

/-- C4 counterexample.  The claim says *every* read operation — including
the by-title search — takes an optional acting-user identifier and filters to
owned-or-unowned rows.  But `search_books_by_title` has no user parameter at
all: on a store holding one `"T"` book owned by user 2, any caller — in
particular user 1 — receives that row from the search, although it is neither
owned by user 1 nor unowned (as `get_all_books` with user 1, which does
filter, confirms by returning nothing). -/
theorem c4_search_ignores_ownership_counterexample :
    search_books_by_title dbC4 tT = [⟨1, tT, tA, none, some 2⟩] ∧
    get_all_books dbC4 (some 1) = [] ∧
    (⟨1, tT, tA, none, some 2⟩ : BookRow).user_id ≠ some 1 ∧
    (⟨1, tT, tA, none, some 2⟩ : BookRow).user_id ≠ none :=
  ⟨rfl, rfl, by decide, by decide⟩

/-- C4 (corrected).  `get_book` and `get_all_books` accept the optional
acting-user identifier and, when it is given, return exactly the rows owned
by that user plus the rows with no owner; the by-title search takes no user
identifier and returns every row with the given title regardless of owner. -/
theorem c4_read_ops_ownership_filter :
    (∀ (db : DB) (u : Nat) (r : BookRow),
        r ∈ get_all_books db (some u) ↔
          r ∈ db.rows ∧ (r.user_id = some u ∨ r.user_id = none)) ∧
    (∀ (db : DB) (i : Int) (u : Nat) (r : BookRow), 1 ≤ i → i ≤ 2147483647 →
        (get_book db i (some u) = .ok (some r) →
          r ∈ db.rows ∧ (r.id : Int) = i ∧ (r.user_id = some u ∨ r.user_id = none)) ∧
        (get_book db i (some u) = .ok none ↔
          ∀ r' ∈ db.rows,
            ¬(((r'.id : Int) = i) ∧ (r'.user_id = some u ∨ r'.user_id = none)))) ∧
    (∀ (db : DB) (t : Str) (r : BookRow),
        r ∈ search_books_by_title db t ↔ r ∈ db.rows ∧ r.title = t) := by
  refine ⟨?_, ?_, ?_⟩
  · intro db u r
    unfold get_all_books ownedOrUnowned
    rw [List.mem_reverse, List.mem_filter]
    simp
  · intro db i u r h1 h2
    have h0 : (0 : Int) ≤ i := by omega
    have hv : validate_book_id i = .ok i.toNat := by
      unfold validate_book_id
      rw [if_neg (by omega), if_neg (by omega)]
    have hgb : get_book db i (some u) =
        .ok (db.rows.find? (fun q => q.id == i.toNat && ownedOrUnowned q u)) := by
      unfold get_book
      rw [hv]
      rfl
    have hidint : ∀ n : Nat, (n = i.toNat) ↔ ((n : Int) = i) := by
      intro n
      omega
    constructor
    · intro hsome
      rw [hgb, Except.ok.injEq] at hsome
      have hmem := List.mem_of_find?_eq_some hsome
      have hp := List.find?_some hsome
      rw [Bool.and_eq_true, beq_iff_eq] at hp
      refine ⟨hmem, (hidint r.id).mp hp.1, ?_⟩
      have hown := hp.2
      unfold ownedOrUnowned at hown
      rw [Bool.or_eq_true, beq_iff_eq, beq_iff_eq] at hown
      exact hown
    · rw [hgb, Except.ok.injEq, List.find?_eq_none]
      constructor
      · intro hall r' hr' hc
        have hq := hall r' hr'
        rw [Bool.and_eq_true, beq_iff_eq] at hq
        apply hq
        refine ⟨(hidint r'.id).mpr hc.1, ?_⟩
        unfold ownedOrUnowned
        rw [Bool.or_eq_true, beq_iff_eq, beq_iff_eq]
        exact hc.2
      · intro hall r' hr'
        rw [Bool.and_eq_true, beq_iff_eq]
        intro hc
        apply hall r' hr'
        refine ⟨(hidint r'.id).mp hc.1, ?_⟩
        have hown := hc.2
        unfold ownedOrUnowned at hown
        rw [Bool.or_eq_true, beq_iff_eq, beq_iff_eq] at hown
        exact hown
  · intro db t r
    unfold search_books_by_title
    rw [List.mem_filter]
    simp

/-- Witness for C4: `get_book` with acting user 2 returns user 2's row on
`dbC4`, and the amended theorem's characterisation applies to it. -/
theorem c4_witness :
    (⟨1, tT, tA, none, some 2⟩ : BookRow) ∈ dbC4.rows ∧
    (((⟨1, tT, tA, none, some 2⟩ : BookRow).id : Int) = 1) ∧
    ((⟨1, tT, tA, none, some 2⟩ : BookRow).user_id = some 2 ∨
      (⟨1, tT, tA, none, some 2⟩ : BookRow).user_id = none) :=
  (c4_read_ops_ownership_filter.2.1 dbC4 1 2 ⟨1, tT, tA, none, some 2⟩
    (by decide) (by decide)).1 rfl
